import Mathlib

/-!
Verification of the upload-queue scheduling engine (`scheduler.py`,
`sheets_manager.py`, `config.py`).

The embedding models the two worksheets ("Queue" for YouTube, "Queue_FB" for
Facebook) as lists of rows, a row being a list of cell strings, and threads the
sheet state explicitly through each operation.  External collaborators
(metadata generator, Drive download, Facebook upload) are parameters
(`Oracles`), since the engine treats them as opaque calls that may fail.
Wall-clock inputs (`today`, `tomorrow` date strings and the minute-of-day used
by the window gate) are explicit arguments: the Python code reads them from
`datetime.now(WIB)`.
-/

/-! ### Python string primitives

`str.split`, `in`, `startswith`, `strip`, `lower` and `int()` are re-implemented
structurally so that every theorem can be checked by kernel evaluation. -/

/-- Try to remove `sep` from the front of `s`; `some rest` on a match. -/
def chopSep : List Char → List Char → Option (List Char)
  | [], s => some s
  | _, [] => none
  | p :: ps, c :: cs => if p = c then chopSep ps cs else none

/-- Worker for `pySplit`, scanning left to right with fuel (the fuel is the
string length plus one, enough for every step to consume a character). -/
def pySplitGo (sep : List Char) : Nat → List Char → List Char → List (List Char)
  | 0, _, acc => [acc.reverse]
  | _ + 1, [], acc => [acc.reverse]
  | fuel + 1, c :: cs, acc =>
    match chopSep sep (c :: cs) with
    | some rest => acc.reverse :: pySplitGo sep fuel rest []
    | none => pySplitGo sep fuel cs (c :: acc)

/-- Python `s.split(sep)` for a non-empty separator: non-overlapping matches,
left to right, keeping empty fields. -/
def pySplit (s sep : String) : List String :=
  (pySplitGo sep.data (s.data.length + 1) s.data []).map fun l => String.mk l

/-- Python `sub in s` for a non-empty `sub`. -/
def containsSub (s sub : String) : Bool :=
  (pySplit s sub).length > 1

/-- Python `s.startswith(pre)`. -/
def pyStartsWith (s pre : String) : Bool :=
  pre.data.isPrefixOf s.data

/-- Python whitespace for `str.strip()`. -/
def pyIsSpace (c : Char) : Bool :=
  c = ' ' || c = '\t' || c = '\n' || c = '\r' || c = '\x0b' || c = '\x0c'

/-- Python `s.strip()`. -/
def pyStrip (s : String) : String :=
  String.mk (((s.data.dropWhile pyIsSpace).reverse.dropWhile pyIsSpace).reverse)

/-- ASCII lower-casing of one character (Python `str.lower` on the data the
sheets hold). -/
def asciiLower (c : Char) : Char :=
  if 'A' ≤ c ∧ c ≤ 'Z' then Char.ofNat (c.toNat + 32) else c

/-- Python `s.lower()` (ASCII). -/
def pyLower (s : String) : String :=
  String.mk (s.data.map asciiLower)

/-- All characters are decimal digits (and there is at least one). -/
def digitsVal : List Char → Option Nat
  | [] => none
  | ds =>
    if ds.all (fun c => c.isDigit) then
      some (ds.foldl (fun n c => n * 10 + (c.toNat - '0'.toNat)) 0)
    else none

/-- Python `int(s)`: optional surrounding whitespace, optional sign, decimal
digits; `none` models the `ValueError`. -/
def pyInt (s : String) : Option Int :=
  match (pyStrip s).data with
  | '-' :: ds => (digitsVal ds).map fun n => -(n : Int)
  | '+' :: ds => (digitsVal ds).map fun n => (n : Int)
  | ds => (digitsVal ds).map fun n => (n : Int)

/-! ### config.py -/

/-- `config.UPLOAD_SCHEDULE_HOURS` with the environment defaults
("21:00,00:00,03:00"). -/
def defaultSlots : List String := ["21:00", "00:00", "03:00"]

/-- `config.DEFAULT_CHANNEL` with the environment default. -/
def DEFAULT_CHANNEL : String := "default"

/-! ### scheduler.py: the window gate and drive-link parsing -/

/-- Parse one schedule entry: `h, m = map(int, time_str.split(":")); h*60+m`.
`none` models the `ValueError` on a malformed entry (wrong number of fields or
a non-integer field), which the callers catch and skip. -/
def parseHM (timeStr : String) : Option Int :=
  match pySplit timeStr ":" with
  | [a, b] =>
    match pyInt a, pyInt b with
    | some h, some m => some (h * 60 + m)
    | _, _ => none
  | _ => none

/-- `Scheduler.is_upload_time` (scheduler.py lines 44-68), with the current
minute-of-day passed explicitly.  A `for` loop with `return True` is an `any`;
the `except (ValueError, AttributeError): continue` is the `none` branch. -/
def is_upload_time (currentMinutes : Int) (schedule : List String) : Bool :=
  schedule.any fun timeStr =>
    match parseHM timeStr with
    | none => false
    | some scheduledMinutes =>
      let diff : Int := ((currentMinutes - scheduledMinutes).natAbs : Int)
      let diff := if diff > 720 then 1440 - diff else diff
      diff ≤ 30

/-- `Scheduler._extract_drive_id` (scheduler.py lines 300-314). -/
def extract_drive_id (driveLink : String) : String :=
  if driveLink = "" then ""
  else if containsSub driveLink "/file/d/" then
    let parts := (pySplit driveLink "/file/d/").getD 1 ""
    (pySplit ((pySplit parts "/").getD 0 "") "?").getD 0 ""
  else if containsSub driveLink "id=" then
    (pySplit ((pySplit driveLink "id=").getD 1 "") "&").getD 0 ""
  else pyStrip driveLink

/-- Circular distance on the 1440-minute clock (the reading of the window
gate the implicit-claim analysis is about). -/
def circularDistance (n t : Int) : Int :=
  min |n - t| (1440 - |n - t|)

/-- The minute values of the parseable schedule entries. -/
def slotMinutes (schedule : List String) : List Int :=
  schedule.filterMap parseHM

/-! ### sheets_manager.py: the sheet state

A worksheet is a list of rows (row 1 is the header), a row a list of cell
strings.  `gspread.update_cell(row, col, value)` writes one cell of the fixed
grid; the model pads with empty cells when the addressed cell lies beyond the
rows recorded so far, matching the blank cells of the physical grid. -/

/-- One worksheet: a list of rows of cell strings. -/
abbrev Sheet : Type := List (List String)

/-- The two queue worksheets of the spreadsheet: `self.sheet` ("Queue",
YouTube) and `self.fb_sheet` ("Queue_FB", Facebook). -/
structure QState where
  sheet : Sheet
  fb_sheet : Sheet
deriving DecidableEq

/-- Read cell `n` (0-based) of a row; blank cells read as `""`. -/
def getIdx : List String → Nat → String
  | [], _ => ""
  | x :: _, 0 => x
  | _ :: xs, n + 1 => getIdx xs n

/-- Read row `n` (0-based) of a sheet; missing rows read as `[]`. -/
def getRowIdx : Sheet → Nat → List String
  | [], _ => []
  | r :: _, 0 => r
  | _ :: rs, n + 1 => getRowIdx rs n

/-- Write cell `n` (0-based) of a row, padding with blanks if needed. -/
def setIdx : List String → Nat → String → List String
  | [], 0, v => [v]
  | [], m + 1, v => "" :: setIdx [] m v
  | _ :: xs, 0, v => v :: xs
  | x :: xs, m + 1, v => x :: setIdx xs m v

/-- Write cell `(n, c)` (0-based) of a sheet, padding with blank rows. -/
def setSheetIdx : Sheet → Nat → Nat → String → Sheet
  | [], 0, c, v => [setIdx [] c v]
  | [], m + 1, c, v => [] :: setSheetIdx [] m c v
  | r :: rs, 0, c, v => setIdx r c v :: rs
  | r :: rs, m + 1, c, v => r :: setSheetIdx rs m c v

/-- `worksheet.update_cell(row, col, value)` — 1-indexed, as in gspread and
`config.SHEET_COLUMNS`. -/
def setCell (sh : Sheet) (r c : Nat) (v : String) : Sheet :=
  setSheetIdx sh (r - 1) (c - 1) v

/-- Read the 1-indexed cell `(r, c)`; blank/missing cells read as `""`. -/
def getCell (sh : Sheet) (r c : Nat) : String :=
  getIdx (getRowIdx sh (r - 1)) (c - 1)

/-- `target_sheet = self.fb_sheet if platform == "facebook" else self.sheet`. -/
def target (s : QState) (platform : String) : Sheet :=
  if platform = "facebook" then s.fb_sheet else s.sheet

/-- Store back the platform-selected worksheet. -/
def setTarget (s : QState) (platform : String) (t : Sheet) : QState :=
  if platform = "facebook" then { s with fb_sheet := t } else { s with sheet := t }

/-- `target_sheet.update_cell(row, col, v)` inside a `SheetsManager` method
that selected `target_sheet` by `platform`. -/
def update_cell_state (s : QState) (platform : String) (row col : Nat) (v : String) : QState :=
  setTarget s platform (setCell (target s platform) row col v)

/-- `SheetsManager.update_status` (sheets_manager.py lines 175-180); the
status column is `config.SHEET_COLUMNS["status"] = 7`. -/
def update_status (s : QState) (row : Nat) (status platform : String) : QState :=
  update_cell_state s platform row 7 status

/-- `SheetsManager.set_youtube_link` (sheets_manager.py lines 182-188): writes
the link to column 8 of the platform worksheet, then calls
`self.update_status(row, "uploaded")` WITHOUT forwarding `platform`, so the
status write always lands on the YouTube sheet (the `platform="youtube"`
default of `update_status`). -/
def set_youtube_link (s : QState) (row : Nat) (link platform : String) : QState :=
  update_status (update_cell_state s platform row 8 link) row "uploaded" "youtube"

/-- `SheetsManager.set_scheduled_date` (sheets_manager.py lines 190-195):
column 9, then `update_status(row, "scheduled", platform=platform)`. -/
def set_scheduled_date (s : QState) (row : Nat) (dateStr platform : String) : QState :=
  update_status (update_cell_state s platform row 9 dateStr) row "scheduled" platform

/-- `SheetsManager.update_metadata` (sheets_manager.py lines 164-173):
columns 4 (title), 5 (description), 6 (tags). -/
def update_metadata (s : QState) (row : Nat) (title description tags platform : String) : QState :=
  update_cell_state
    (update_cell_state (update_cell_state s platform row 4 title) platform row 5 description)
    platform row 6 tags

/-- `SheetsManager.count_uploads_today` (sheets_manager.py lines 256-268):
rows past the header with at least 7 cells, status cell (0-based index 6)
equal to "uploaded" after strip/lower, and creation timestamp (index 0)
starting with the given date. -/
def count_uploads_today (sh : Sheet) (today : String) : Nat :=
  ((sh.drop 1).filter fun row =>
    decide (row.length ≥ 7) &&
    (pyLower (pyStrip (row.getD 6 "")) = "uploaded" : Bool) &&
    pyStartsWith (row.getD 0 "") today).length

/-- The dict rows of `get_pending_videos` / `get_scheduled_videos`
(sheets_manager.py lines 210-222 and 241-253). -/
structure Video where
  row : Nat
  timestamp : String
  filename : String
  drive_link : String
  title : String
  description : String
  tags : String
  status : String
  youtube_link : String
  scheduled_date : String
  channel : String
deriving DecidableEq

/-- Build the video dict from sheet row number `i` (1-indexed, starting at 2)
and its cells; `row[k] if len(row) > k else default` is `getD` with the same
default, except the channel whose default is `config.DEFAULT_CHANNEL`. -/
def mkVideo (i : Nat) (row : List String) : Video :=
  { row := i
    timestamp := row.getD 0 ""
    filename := row.getD 1 ""
    drive_link := row.getD 2 ""
    title := row.getD 3 ""
    description := row.getD 4 ""
    tags := row.getD 5 ""
    status := row.getD 6 ""
    youtube_link := row.getD 7 ""
    scheduled_date := row.getD 8 ""
    channel := if row.length > 9 then row.getD 9 "" else DEFAULT_CHANNEL }

/-- `SheetsManager.get_pending_videos` (sheets_manager.py lines 197-224):
rows past the header, 1-indexed from 2, with at least 7 cells and status
"pending" after strip/lower. -/
def get_pending_videos (sh : Sheet) : List Video :=
  (sh.drop 1).enum.filterMap fun p =>
    if p.2.length ≥ 7 ∧ pyLower (pyStrip (p.2.getD 6 "")) = "pending" then
      some (mkVideo (p.1 + 2) p.2)
    else none

/-- `SheetsManager.get_scheduled_videos` (sheets_manager.py lines 226-254)
with an explicit `date_str`: at least 9 cells, status "scheduled", and
(date_str == "all" or the stripped scheduled-date cell equals date_str). -/
def get_scheduled_videos (sh : Sheet) (dateStr : String) : List Video :=
  (sh.drop 1).enum.filterMap fun p =>
    if p.2.length ≥ 9 ∧ pyLower (pyStrip (p.2.getD 6 "")) = "scheduled" ∧
        (dateStr = "all" ∨ pyStrip (p.2.getD 8 "") = dateStr) then
      some (mkVideo (p.1 + 2) p.2)
    else none

/-- `SheetsManager.add_video` (sheets_manager.py lines 116-162).  The quota
constants and the clock values it reads (`datetime.now(WIB)` formatted as a
timestamp and as today / tomorrow date strings) are explicit arguments.  The
returned row number is the appended physical row, which equals the new row
count of the worksheet.  Only the `remaining_today` field of
`get_queue_summary` is consumed, namely
`max(0, max_uploads - count_uploads_today)`. -/
def add_video (maxYT maxFB : Int) (nowStr today tomorrow : String)
    (filename driveLink channel status platform : String) (s : QState) : Nat × QState :=
  let channel := if channel = "" then DEFAULT_CHANNEL else channel
  let maxUploads := if platform = "facebook" then maxFB else maxYT
  let remainingToday : Int :=
    max 0 (maxUploads - (count_uploads_today (target s platform) today : Int))
  let scheduledDate := if remainingToday > 0 then today else tomorrow
  let row := [nowStr, filename, driveLink, "", "", "", status, "", scheduledDate, channel]
  let t := target s platform ++ [row]
  (t.length, setTarget s platform t)

/-! ### scheduler.py: per-item processing and the cycle -/

/-- The metadata dict returned by `generate_metadata` (groq_metadata.py). -/
structure Metadata where
  title : String
  description : String
  tags : String
deriving DecidableEq

/-- The dict returned by `FacebookUploader.upload_reel` (facebook_uploader.py):
`{"success": bool, "url": str, "error": str}`; `upload_reel` catches its own
exceptions and always returns such a dict. -/
structure FBResult where
  success : Bool
  url : String
  error : String
deriving DecidableEq

/-- The external collaborators `_process_single` calls: the metadata
generator, the Drive download, and the Facebook Reels upload.  Each is an
opaque network call; `Except`/the `success` flag model their failure modes. -/
structure Oracles where
  gen_metadata : String → Except String Metadata
  drive_download : String → Except String Unit
  fb_upload_reel : String → String → FBResult

/-- The per-item result dict built by `_process_single`: on success
`{"success": True, "row", "filename", "youtube_link"}`, on failure
`{"success": False, "row", "filename", "error"}`. -/
structure UploadResult where
  success : Bool
  row : Nat
  filename : String
  link : String
  error : Option String
deriving DecidableEq

/-- The failure dict of the `except` block of `_process_single`
(scheduler.py lines 281-289). -/
def failResult (v : Video) (msg : String) : UploadResult :=
  { success := false, row := v.row, filename := v.filename, link := "", error := some msg }

/-- Steps 2-5 of `Scheduler._process_single` (scheduler.py lines 204-289),
after the metadata step: extract the Drive id, download, mark `uploading`,
upload per platform, record the link.  Every failure exit is the `except`
block: `update_status(row, "failed", platform=platform)` plus the failure
dict.

For `platform == "youtube"` the source (line 227) calls
`self.sheets.count_uploaded_for_date(...)`, but `SheetsManager`
(sheets_manager.py) defines no such method, so the attribute access raises
`AttributeError` and the whole branch lands in the `except` block; the
publish-slot computation and `yt.upload` on lines 228-251 are unreachable.
(The pure binding of `scheduled_date_str` on lines 223-225 precedes the raise
but has no effect.) -/
def process_single_core (o : Oracles) (platform : String) (v : Video) (s : QState) :
    UploadResult × QState :=
  let fileId := extract_drive_id v.drive_link
  if fileId = "" then
    (failResult v ("Could not extract Drive file ID from: " ++ v.drive_link),
     update_status s v.row "failed" platform)
  else
    match o.drive_download fileId with
    | .error e => (failResult v e, update_status s v.row "failed" platform)
    | .ok _ =>
      let s2 := update_status s v.row "uploading" platform
      if platform = "youtube" then
        (failResult v "AttributeError: SheetsManager object has no attribute count_uploaded_for_date",
         update_status s2 v.row "failed" platform)
      else if platform = "facebook" then
        let r := o.fb_upload_reel v.filename (v.title ++ "\n\n" ++ v.description)
        if r.success then
          ({ success := true, row := v.row, filename := v.filename, link := r.url, error := none },
           set_youtube_link s2 v.row r.url platform)
        else
          (failResult v ("Facebook Graph API Error: " ++ r.error),
           update_status s2 v.row "failed" platform)
      else
        ({ success := true, row := v.row, filename := v.filename, link := "", error := none },
         set_youtube_link s2 v.row "" platform)

/-- `Scheduler._process_single` (scheduler.py lines 180-289).  Step 1: when
the title is blank after strip, call the metadata generator and persist the
metadata before anything else; a generator failure lands in the `except`
block.  The temp-file cleanup (lines 266-272) touches no queue state and is
not modelled. -/
def process_single (o : Oracles) (platform : String) (v : Video) (s : QState) :
    UploadResult × QState :=
  if pyStrip v.title = "" then
    match o.gen_metadata v.filename with
    | .error e => (failResult v e, update_status s v.row "failed" platform)
    | .ok md =>
      process_single_core o platform
        { v with title := md.title, description := md.description, tags := md.tags }
        (update_metadata s v.row md.title md.description md.tags platform)
  else process_single_core o platform v s

/-- The `for video in to_process[:limit]` loop of `_process_platform_queue`
(scheduler.py lines 166-172): process one item at a time, append its result,
decrement `remaining` on success, break once `remaining <= 0`.  Returns the
results, the final `remaining`, and the final state. -/
def process_loop (o : Oracles) (platform : String) :
    List Video → Int → QState → List UploadResult × Int × QState
  | [], remaining, s => ([], remaining, s)
  | v :: vs, remaining, s =>
    let res := process_single o platform v s
    if res.1.success then
      if remaining - 1 ≤ 0 then ([res.1], remaining - 1, res.2)
      else
        let rest := process_loop o platform vs (remaining - 1) res.2
        (res.1 :: rest.1, rest.2.1, rest.2.2)
    else
      let rest := process_loop o platform vs remaining res.2
      (res.1 :: rest.1, rest.2.1, rest.2.2)

/-- `Scheduler._schedule_remaining` (scheduler.py lines 291-298): push every
pending item of the platform to `scheduled` for the given date. -/
def schedule_remaining (dateStr platform : String) (s : QState) : QState :=
  (get_pending_videos (target s platform)).foldl
    (fun acc v => set_scheduled_date acc v.row dateStr platform) s

/-- `Scheduler._process_platform_queue` (scheduler.py lines 123-178).
`remaining = max_uploads - uploads_today` with the per-platform quota; when
exhausted, reschedule all pending items for tomorrow and return no results.
Otherwise the candidates are today's scheduled items followed by the pending
items; the per-cycle `limit` is `remaining` for YouTube and, for other
platforms, `remaining` when forced else 1 (scheduler.py line 164). -/
def process_platform_queue (o : Oracles) (maxYT maxFB : Int) (today tomorrow platform : String)
    (force : Bool) (s : QState) : List UploadResult × QState :=
  let maxUploads := if platform = "youtube" then maxYT else maxFB
  let remaining : Int := maxUploads - (count_uploads_today (target s platform) today : Int)
  if remaining ≤ 0 then ([], schedule_remaining tomorrow platform s)
  else
    let toProcess :=
      get_scheduled_videos (target s platform) today ++ get_pending_videos (target s platform)
    if toProcess = [] then ([], s)
    else
      let limit : Int := if platform = "youtube" then remaining else if force then remaining else 1
      let out := process_loop o platform (toProcess.take limit.toNat) remaining s
      if out.2.1 ≤ 0 then (out.1, schedule_remaining tomorrow platform out.2.2)
      else (out.1, out.2.2)

/-- The `for platform in ["youtube", "facebook"]` loop shared by
`process_queue` and `force_upload` (scheduler.py lines 104-109 and 116-121). -/
def process_both (o : Oracles) (maxYT maxFB : Int) (today tomorrow : String) (force : Bool)
    (s : QState) : List UploadResult × QState :=
  let y := process_platform_queue o maxYT maxFB today tomorrow "youtube" force s
  let f := process_platform_queue o maxYT maxFB today tomorrow "facebook" force y.2
  (y.1 ++ f.1, f.2)

/-- `Scheduler.process_queue` (scheduler.py lines 92-109): the periodic cycle.
Gate on `is_upload_time` (the current minute-of-day against the configured
schedule); outside the window, return `[]` and touch nothing. -/
def process_queue (o : Oracles) (maxYT maxFB : Int) (minutes : Int) (schedule : List String)
    (today tomorrow : String) (s : QState) : List UploadResult × QState :=
  if is_upload_time minutes schedule then process_both o maxYT maxFB today tomorrow false s
  else ([], s)

/-- `Scheduler.force_upload` (scheduler.py lines 111-121): process both
platform queues with `force=True`; the window gate is never consulted (the
definition takes no minute-of-day input at all). -/
def force_upload (o : Oracles) (maxYT maxFB : Int) (today tomorrow : String) (s : QState) :
    List UploadResult × QState :=
  process_both o maxYT maxFB today tomorrow true s

/-! ### Concrete scenarios -/

/-- The header row both queue worksheets are created with. -/
def hdr : List String :=
  ["Timestamp", "Filename", "Drive Link", "Title", "Description", "Tags",
   "Status", "YouTube Link", "Scheduled Date", "Channel"]

/-- Collaborators that always succeed: metadata from the filename, download
fine, Facebook publish returns a reel URL. -/
def okOracles : Oracles :=
  { gen_metadata := fun f => .ok { title := f, description := "", tags := "" }
    drive_download := fun _ => .ok ()
    fb_upload_reel := fun _ _ => { success := true, url := "https://www.facebook.com/reel/1", error := "" } }

/-- Scenario: the YouTube sheet holds a failed item with an empty link at
row 2; the Facebook sheet holds a pending item at row 2. -/
def stateC1 : QState :=
  { sheet := [hdr,
      ["2026-10-12 08:00:00", "old.mp4", "X1", "T", "D", "g", "failed", "", "", "default"]]
    fb_sheet := [hdr,
      ["2026-10-12 09:00:00", "clip.mp4", "https://drive.google.com/file/d/ABC123/view",
       "Nice", "Desc", "t1", "pending", "", "", "page"]] }

/-- Scenario: the YouTube sheet holds a terminal `failed` item at row 2; the
Facebook sheet holds a pending item at row 2 (distinct contents from
`stateC1`). -/
def stateC2 : QState :=
  { sheet := [hdr,
      ["2026-10-12 07:45:00", "dead.mp4", "Y1", "S", "E", "h", "failed",
       "https://youtu.be/x", "", "default"]]
    fb_sheet := [hdr,
      ["2026-10-12 09:30:00", "reel.mp4", "https://drive.google.com/file/d/ABC123/view",
       "Cool", "Body", "t2", "pending", "", "", "page"]] }

/-- Scenario for the quota counter: with `MAX_UPLOADS_PER_DAY_YOUTUBE = 1`
the YouTube sheet is full for today (row 2 uploaded today) and also holds a
failed item created today (row 3); the Facebook sheet has an old upload
(row 2, yesterday) and a pending item (row 3). -/
def stateC3 : QState :=
  { sheet := [hdr,
      ["2026-10-12 07:00:00", "a.mp4", "A1", "T", "D", "g", "uploaded",
       "https://youtu.be/a", "", "default"],
      ["2026-10-12 07:30:00", "b.mp4", "B1", "T", "D", "g", "failed", "", "", "default"]]
    fb_sheet := [hdr,
      ["2026-10-11 07:00:00", "c.mp4", "C1", "T", "D", "g", "uploaded",
       "https://www.facebook.com/reel/9", "", "page"],
      ["2026-10-12 09:00:00", "d.mp4", "https://drive.google.com/file/d/ABC123/view",
       "Tt", "Dd", "g", "pending", "", "", "page"]] }

/-- Scenario for the per-cycle cap: an empty YouTube queue and two pending
Facebook items, with `MAX_UPLOADS_PER_DAY_FACEBOOK = 2`. -/
def stateC4 : QState :=
  { sheet := [hdr]
    fb_sheet := [hdr,
      ["2026-10-12 08:00:00", "r1.mp4", "https://drive.google.com/file/d/ABC123/view",
       "One", "D1", "g", "pending", "", "", "page"],
      ["2026-10-12 08:05:00", "r2.mp4", "https://drive.google.com/file/d/ABC123/view",
       "Two", "D2", "g", "pending", "", "", "page"]] }

/-- Scenario for the YouTube publish-slot computation: one pending YouTube
item with metadata present and a parseable Drive link; all collaborators
succeed. -/
def stateC6 : QState :=
  { sheet := [hdr,
      ["2026-10-12 06:00:00", "e.mp4", "https://drive.google.com/file/d/ABC123/view",
       "Title", "D", "g", "pending", "", "", "default"]]
    fb_sheet := [hdr] }

/-- Scenario for enqueueing: both worksheets empty (headers only). -/
def stateC9 : QState := { sheet := [hdr], fb_sheet := [hdr] }

/-- Collaborators whose Drive download fails with a network error. -/
def downOracles : Oracles :=
  { gen_metadata := fun f => .ok { title := f, description := "", tags := "" }
    drive_download := fun _ => .error "requests.exceptions.ConnectionError"
    fb_upload_reel := fun _ _ => { success := false, url := "", error := "offline" } }

/-- A pending Facebook item at row 2 (used with `downOracles`). -/
def vidC7 : Video :=
  mkVideo 2 ["2026-10-12 09:00:00", "w.mp4", "https://drive.google.com/file/d/ABC123/view",
    "T", "D", "g", "pending", "", "", "page"]

/-- State holding only `vidC7` on the Facebook sheet. -/
def stateC7 : QState :=
  { sheet := [hdr]
    fb_sheet := [hdr, ["2026-10-12 09:00:00", "w.mp4",
      "https://drive.google.com/file/d/ABC123/view", "T", "D", "g", "pending", "", "", "page"]] }

/-! ### Helper lemmas -/

theorem getIdx_setIdx (v : String) : ∀ (n : Nat) (l : List String), getIdx (setIdx l n v) n = v := by
  intro n
  induction n with
  | zero => intro l; cases l <;> rfl
  | succ m ih => intro l; cases l <;> simp [setIdx, getIdx, ih]

theorem getRowIdx_setSheetIdx (c : Nat) (v : String) :
    ∀ (n : Nat) (sh : Sheet), getRowIdx (setSheetIdx sh n c v) n = setIdx (getRowIdx sh n) c v := by
  intro n
  induction n with
  | zero => intro sh; cases sh <;> rfl
  | succ m ih => intro sh; cases sh <;> simp [setSheetIdx, getRowIdx, ih]

theorem getCell_setCell (sh : Sheet) (r c : Nat) (v : String) :
    getCell (setCell sh r c v) r c = v := by
  unfold getCell setCell
  rw [getRowIdx_setSheetIdx, getIdx_setIdx]

theorem target_setTarget (s : QState) (p : String) (t : Sheet) :
    target (setTarget s p t) p = t := by
  unfold target setTarget
  by_cases hp : p = "facebook" <;> simp [hp]

/-- After `update_status`, the status cell of that row on the platform
worksheet holds the written status. -/
theorem getCell_update_status (s : QState) (row : Nat) (st p : String) :
    getCell (target (update_status s row st p) p) row 7 = st := by
  unfold update_status update_cell_state
  rw [target_setTarget, getCell_setCell]

/-- The row appended at the end of a sheet is read back by `getRowIdx` at the
old length. -/
theorem getRowIdx_append_length (row : List String) :
    ∀ (t : Sheet), getRowIdx (t ++ [row]) t.length = row := by
  intro t
  induction t with
  | nil => rfl
  | cons x xs ih => simpa [getRowIdx] using ih

/-- Every failure exit of `process_single_core` is the `except` block: the
failure dict plus `update_status(row, "failed", platform)` on the current
state. -/
theorem process_single_core_fail (o : Oracles) (p : String) (v : Video) (s : QState)
    (hfail : (process_single_core o p v s).1.success = false) :
    ∃ msg s0, process_single_core o p v s
      = (failResult v msg, update_status s0 v.row "failed" p) := by
  unfold process_single_core at *
  by_cases h1 : extract_drive_id v.drive_link = ""
  · refine ⟨"Could not extract Drive file ID from: " ++ v.drive_link, s, ?_⟩
    simp [h1]
  · simp only [h1, if_false] at hfail ⊢
    cases h2 : o.drive_download (extract_drive_id v.drive_link) with
    | error e =>
      refine ⟨e, s, ?_⟩
      simp [h2]
    | ok u =>
      simp only [h2] at hfail ⊢
      by_cases h3 : p = "youtube"
      · refine ⟨"AttributeError: SheetsManager object has no attribute count_uploaded_for_date",
          update_status s v.row "uploading" p, ?_⟩
        simp [h3]
      · simp only [h3, if_false] at hfail ⊢
        by_cases h4 : p = "facebook"
        · subst h4
          rw [if_pos rfl] at hfail ⊢
          by_cases h5 : (o.fb_upload_reel v.filename (v.title ++ "\n\n" ++ v.description)).success
          · simp [h5, failResult] at hfail
          · simp only [Bool.not_eq_true] at h5
            refine ⟨"Facebook Graph API Error: "
                ++ (o.fb_upload_reel v.filename (v.title ++ "\n\n" ++ v.description)).error,
              update_status s v.row "uploading" "facebook", ?_⟩
            simp [h5]
        · simp [h4, failResult] at hfail

/-- Every success exit of `process_single_core` carries no error text. -/
theorem process_single_core_success (o : Oracles) (p : String) (v : Video) (s : QState)
    (h : (process_single_core o p v s).1.success = true) :
    (process_single_core o p v s).1.error = none := by
  unfold process_single_core at *
  by_cases h1 : extract_drive_id v.drive_link = ""
  · simp [h1, failResult] at h
  · simp only [h1, if_false] at h ⊢
    cases h2 : o.drive_download (extract_drive_id v.drive_link) with
    | error e => simp [h2, failResult] at h
    | ok u =>
      simp only [h2] at h ⊢
      by_cases h3 : p = "youtube"
      · simp [h3, failResult] at h
      · simp only [h3, if_false] at h ⊢
        by_cases h4 : p = "facebook"
        · simp only [h4, if_true] at h ⊢
          by_cases h5 : (o.fb_upload_reel v.filename (v.title ++ "\n\n" ++ v.description)).success
          · simp [h5]
          · simp only [Bool.not_eq_true] at h5
            simp [h5, failResult] at h
        · simp [h4]

/-- Every failure exit of `process_single` is the `except` block. -/
theorem process_single_fail (o : Oracles) (p : String) (v : Video) (s : QState)
    (hfail : (process_single o p v s).1.success = false) :
    ∃ msg w s0, (process_single o p v s)
      = (failResult w msg, update_status s0 w.row "failed" p) ∧ w.row = v.row := by
  unfold process_single at *
  by_cases h1 : pyStrip v.title = ""
  · simp only [h1, if_true] at hfail ⊢
    cases h2 : o.gen_metadata v.filename with
    | error e =>
      refine ⟨e, v, s, ?_, rfl⟩
      simp [h2]
    | ok md =>
      simp only [h2] at hfail ⊢
      obtain ⟨msg, s0, heq⟩ := process_single_core_fail o p _ _ hfail
      exact ⟨msg, _, s0, heq, rfl⟩
  · simp only [h1, if_false] at hfail ⊢
    obtain ⟨msg, s0, heq⟩ := process_single_core_fail o p _ _ hfail
    exact ⟨msg, v, s0, heq, rfl⟩

/-- A failed `process_single` records a failure reason and leaves the item
marked `failed` on the platform worksheet. -/
theorem process_single_fail_spec (o : Oracles) (p : String) (v : Video) (s : QState)
    (hfail : (process_single o p v s).1.success = false) :
    (process_single o p v s).1.error.isSome = true
      ∧ getCell (target (process_single o p v s).2 p) v.row 7 = "failed" := by
  obtain ⟨msg, w, s0, heq, hrow⟩ := process_single_fail o p v s hfail
  rw [heq]
  refine ⟨rfl, ?_⟩
  rw [← hrow]
  exact getCell_update_status s0 w.row "failed" p

/-- Every success exit of `process_single` carries no error text. -/
theorem process_single_success (o : Oracles) (p : String) (v : Video) (s : QState)
    (h : (process_single o p v s).1.success = true) :
    (process_single o p v s).1.error = none := by
  unfold process_single at *
  by_cases h1 : pyStrip v.title = ""
  · simp only [h1, if_true] at h ⊢
    cases h2 : o.gen_metadata v.filename with
    | error e => simp [h2, failResult] at h
    | ok md =>
      simp only [h2] at h ⊢
      exact process_single_core_success o p _ _ h
  · simp only [h1, if_false] at h ⊢
    exact process_single_core_success o p v s h

/-- `process_single` result dicts carry an error reason exactly when they
report failure. -/
theorem process_single_error_iff (o : Oracles) (p : String) (v : Video) (s : QState) :
    (process_single o p v s).1.error.isSome = !(process_single o p v s).1.success := by
  cases hs : (process_single o p v s).1.success
  · simp [(process_single_fail_spec o p v s hs).1]
  · simp [process_single_success o p v s hs]

/-- A failed first candidate does not stop the loop: its result is prepended
and the remaining candidates are processed with `remaining` unchanged. -/
theorem process_loop_cons_fail (o : Oracles) (p : String) (v : Video) (vs : List Video)
    (rem : Int) (s : QState) (hfail : (process_single o p v s).1.success = false) :
    process_loop o p (v :: vs) rem s =
      ((process_single o p v s).1 :: (process_loop o p vs rem (process_single o p v s).2).1,
       (process_loop o p vs rem (process_single o p v s).2).2.1,
       (process_loop o p vs rem (process_single o p v s).2).2.2) := by
  simp [process_loop, hfail]

/-- Every result dict the loop emits satisfies the error/success discipline. -/
theorem process_loop_error_iff (o : Oracles) (p : String) :
    ∀ (vs : List Video) (rem : Int) (s : QState),
      ∀ r ∈ (process_loop o p vs rem s).1, r.error.isSome = !r.success := by
  intro vs
  induction vs with
  | nil =>
    intro rem s r hr
    simp [process_loop] at hr
  | cons v vs ih =>
    intro rem s r hr
    simp only [process_loop] at hr
    split at hr
    · split at hr
      · simp only [List.mem_singleton] at hr
        rw [hr]
        exact process_single_error_iff o p v s
      · simp only [List.mem_cons] at hr
        rcases hr with hr | hr
        · rw [hr]
          exact process_single_error_iff o p v s
        · exact ih _ _ r hr
    · simp only [List.mem_cons] at hr
      rcases hr with hr | hr
      · rw [hr]
        exact process_single_error_iff o p v s
      · exact ih _ _ r hr

/-- Every result dict a platform pass emits satisfies the error/success
discipline. -/
theorem process_platform_queue_error_iff (o : Oracles) (maxYT maxFB : Int)
    (today tomorrow platform : String) (force : Bool) (s : QState) :
    ∀ r ∈ (process_platform_queue o maxYT maxFB today tomorrow platform force s).1,
      r.error.isSome = !r.success := by
  intro r hr
  simp only [process_platform_queue] at hr
  repeat' split at hr
  all_goals first
    | exact process_loop_error_iff o platform _ _ _ r hr
    | simp at hr

/-- Every result dict of a full two-platform pass satisfies the
error/success discipline. -/
theorem process_both_error_iff (o : Oracles) (maxYT maxFB : Int) (today tomorrow : String)
    (force : Bool) (s : QState) :
    ∀ r ∈ (process_both o maxYT maxFB today tomorrow force s).1,
      r.error.isSome = !r.success := by
  intro r hr
  simp only [process_both] at hr
  rcases List.mem_append.1 hr with hr | hr
  · exact process_platform_queue_error_iff o maxYT maxFB today tomorrow "youtube" force s r hr
  · exact process_platform_queue_error_iff o maxYT maxFB today tomorrow "facebook" force _ r hr

/-- The per-slot check inside `is_upload_time` (fold the midnight wrap when
the raw distance exceeds 720) equals the circular-distance check; no bound on
the inputs is even needed. -/
theorem gate_check_eq_circular (n t : Int) :
    ((if ((n - t).natAbs : Int) > 720 then 1440 - ((n - t).natAbs : Int)
      else ((n - t).natAbs : Int)) ≤ 30)
      ↔ circularDistance n t ≤ 30 := by
  have habs : ((n - t).natAbs : Int) = |n - t| := Int.abs_eq_natAbs (n - t) |>.symm
  rw [habs]
  unfold circularDistance
  rcases abs_cases (n - t) with ⟨heq, _⟩ | ⟨heq, _⟩ <;> rw [heq] <;>
    rw [min_def] <;> split_ifs <;> omega

/-- The window gate opens exactly when some parseable slot is within circular
distance 30 of the current minute. -/
theorem is_upload_time_iff_circular (n : Int) (schedule : List String) :
    is_upload_time n schedule = true
      ↔ ∃ t ∈ slotMinutes schedule, circularDistance n t ≤ 30 := by
  unfold is_upload_time slotMinutes
  rw [List.any_eq_true]
  constructor
  · rintro ⟨ts, hts, hcheck⟩
    cases hp : parseHM ts with
    | none => rw [hp] at hcheck; simp at hcheck
    | some t =>
      rw [hp] at hcheck
      simp only [decide_eq_true_eq] at hcheck
      exact ⟨t, List.mem_filterMap.2 ⟨ts, hts, hp⟩, (gate_check_eq_circular n t).1 hcheck⟩
  · rintro ⟨t, ht, hd⟩
    obtain ⟨ts, hts, hp⟩ := List.mem_filterMap.1 ht
    refine ⟨ts, hts, ?_⟩
    rw [hp]
    simp only [decide_eq_true_eq]
    exact (gate_check_eq_circular n t).2 hd

/-! ### The claims -/

/-- Claim C1.  The claim states that whenever an operation sets an item's
status to "uploaded" the same item's published-link field is non-empty, the
status and link writes landing on the same item of the same platform sheet.
The code violates this: `set_youtube_link` (sheets_manager.py line 187) calls
`self.update_status(row, "uploaded")` without `platform=platform`, so for a
Facebook upload the link lands on the Facebook sheet while the "uploaded"
status lands on the YouTube sheet.  Concretely, after a force cycle on
`stateC1` (YouTube row 2 failed with empty link, Facebook row 2 pending), the
YouTube sheet row 2 reads status "uploaded" with an empty link cell, while
the Facebook row keeps status "uploading" next to the freshly written link. -/
theorem fb_upload_writes_uploaded_to_youtube_sheet :
    getCell ((force_upload okOracles 1 1 "2026-10-12" "2026-10-13" stateC1).2).sheet 2 7
      = "uploaded"
    ∧ getCell ((force_upload okOracles 1 1 "2026-10-12" "2026-10-13" stateC1).2).sheet 2 8
      = ""
    ∧ getCell ((force_upload okOracles 1 1 "2026-10-12" "2026-10-13" stateC1).2).fb_sheet 2 7
      = "uploading"
    ∧ getCell ((force_upload okOracles 1 1 "2026-10-12" "2026-10-13" stateC1).2).fb_sheet 2 8
      = "https://www.facebook.com/reel/1" := by decide

/-- Claim C2.  The claim states that an item in "uploaded" or "failed" is
never mutated by a subsequent cycle.  The candidate scan indeed selects only
"pending" and "scheduled" rows, but the missing `platform=platform` in
`set_youtube_link` makes a successful Facebook upload write "uploaded" into
the YouTube sheet at the same row number: on `stateC2` the terminal failed
YouTube item at row 2 is mutated to "uploaded" by a force cycle that
processed only the Facebook queue. -/
theorem terminal_item_mutated_by_cycle :
    getCell stateC2.sheet 2 7 = "failed"
    ∧ getCell ((force_upload okOracles 1 1 "2026-10-12" "2026-10-13" stateC2).2).sheet 2 7
      = "uploaded" := by decide

/-- Claim C3.  The claim states `count(uploaded, platform, today)` — as
`count_uploads_today` computes it — never exceeds the platform quota after
any sequence of cycles.  The cross-sheet status write of `set_youtube_link`
breaks this: on `stateC3` with `MAX_UPLOADS_PER_DAY_YOUTUBE = 1` the YouTube
counter is already 1 (its own pass refuses to upload), yet the Facebook pass
of the same force cycle stamps "uploaded" onto YouTube row 3 (a failed item
created today), pushing the YouTube counter to 2 > 1. -/
theorem daily_counter_exceeds_quota :
    count_uploads_today stateC3.sheet "2026-10-12" = 1
    ∧ count_uploads_today
        ((force_upload okOracles 1 1 "2026-10-12" "2026-10-13" stateC3).2).sheet "2026-10-12"
      = 2 := by decide

/-- Claim C4, counterexample.  The claim states a force cycle still applies
the per-cycle cap policy (at most 1 Facebook item per cycle).  It does not:
`limit = remaining if force else 1` (scheduler.py line 164), so a force cycle
on `stateC4` (two pending Facebook items, quota 2) uploads both of them in
one cycle. -/
theorem force_cap_counterexample :
    ¬ ((force_upload okOracles 6 2 "2026-10-12" "2026-10-13" stateC4).1.length ≤ 1)
    ∧ ((force_upload okOracles 6 2 "2026-10-12" "2026-10-13" stateC4).1.map
        (fun r => r.filename)) = ["r1.mp4", "r2.mp4"] := by decide

/-- Claim C4, amended: a force cycle skips the time-window gate and still
refuses to upload when the remaining quota is ≤ 0, but it lifts the per-cycle
cap for the cap-limited platform — under force, Facebook processes up to
`remaining` items per cycle instead of 1.  Conjunct 1: the quota gate holds
for every state and both force values.  Conjuncts 2 and 3: with two pending
Facebook items and quota 2, the force cycle yields two results while the
periodic cycle inside the window (21:00 = minute 1260) yields one. -/
theorem force_cycle_amended :
    (∀ (o : Oracles) (maxYT maxFB : Int) (today tomorrow : String) (force : Bool) (s : QState),
        maxFB ≤ (count_uploads_today (target s "facebook") today : Int) →
        (process_platform_queue o maxYT maxFB today tomorrow "facebook" force s).1 = [])
    ∧ ((force_upload okOracles 6 2 "2026-10-12" "2026-10-13" stateC4).1).length = 2
    ∧ ((process_queue okOracles 6 2 1260 defaultSlots "2026-10-12" "2026-10-13" stateC4).1).length
      = 1 := by
  refine ⟨?_, by decide, by decide⟩
  intro o maxYT maxFB today tomorrow force s hq
  have hmax : (if ("facebook" : String) = "youtube" then maxYT else maxFB) = maxFB :=
    if_neg (by decide)
  simp only [process_platform_queue, hmax]
  rw [if_pos (by omega : maxFB - (count_uploads_today (target s "facebook") today : Int) ≤ 0)]

/-- Witness for the amended claim C4: with quota 0 and an empty queue the
hypothesis of the quota conjunct holds and the Facebook force pass yields no
results. -/
theorem force_cycle_amended_witness :
    ((0 : Int) ≤ (count_uploads_today (target stateC9 "facebook") "2026-10-12" : Int))
    ∧ (process_platform_queue okOracles 0 0 "2026-10-12" "2026-10-13" "facebook" true stateC9).1
      = [] :=
  ⟨by decide,
   force_cycle_amended.1 okOracles 0 0 "2026-10-12" "2026-10-13" true stateC9 (by decide)⟩

/-- Claim C5.  With the configured slots ["21:00","00:00","03:00"] and the
±30-minute tolerance: a periodic cycle at 20:29 (minute 1229) processes
nothing and leaves the state untouched; at 20:31 (minute 1231) it passes the
gate and runs the two-platform processing; a force cycle runs the
two-platform processing unconditionally — `force_upload` takes no
minute-of-day input at all, because the source never consults
`is_upload_time` on the force path. -/
theorem window_gate_example_times (o : Oracles) (maxYT maxFB : Int) (today tomorrow : String)
    (s : QState) :
    process_queue o maxYT maxFB 1229 defaultSlots today tomorrow s = ([], s)
    ∧ process_queue o maxYT maxFB 1231 defaultSlots today tomorrow s
        = process_both o maxYT maxFB today tomorrow false s
    ∧ force_upload o maxYT maxFB today tomorrow s
        = process_both o maxYT maxFB today tomorrow true s := by
  refine ⟨?_, ?_, rfl⟩
  · unfold process_queue
    rw [if_neg (by decide)]
  · unfold process_queue
    rw [if_pos (by decide)]

/-- Claim C6.  The claim states the publish-slot index computation clamps to
the last configured slot and completes without error.  It cannot complete:
scheduler.py line 227 calls `self.sheets.count_uploaded_for_date(...)`, but
`SheetsManager` defines no such method, so the attribute access raises
`AttributeError` before the clamp on lines 228-229 can run; the item is
caught by the per-item handler and marked "failed".  On `stateC6` (one
pending YouTube item with metadata and a valid link, all collaborators
succeeding) the cycle returns a single failure result carrying the
AttributeError text and row 2 ends up "failed". -/
theorem publish_slot_lookup_raises_attribute_error :
    ((force_upload okOracles 3 3 "2026-10-12" "2026-10-13" stateC6).1.map
        (fun r => (r.success, r.error)))
      = [(false,
          some "AttributeError: SheetsManager object has no attribute count_uploaded_for_date")]
    ∧ getCell ((force_upload okOracles 3 3 "2026-10-12" "2026-10-13" stateC6).2).sheet 2 7
      = "failed" := by decide

/-- Claim C7.  A failure while processing a single item is contained at the
item boundary: the result dict records a reason, the item is marked "failed"
on its platform sheet, the loop continues to the next candidate with
`remaining` unchanged, and the public cycle operations return structured
per-item results whose error field is present exactly on failures (they are
total functions — no exception escapes the per-item handler). -/
theorem per_item_failure_isolated (o : Oracles) (p : String) (v : Video) (vs : List Video)
    (rem : Int) (s : QState)
    (hfail : (process_single o p v s).1.success = false) :
    ((process_single o p v s).1.error.isSome = true
      ∧ getCell (target (process_single o p v s).2 p) v.row 7 = "failed")
    ∧ process_loop o p (v :: vs) rem s =
        ((process_single o p v s).1 :: (process_loop o p vs rem (process_single o p v s).2).1,
         (process_loop o p vs rem (process_single o p v s).2).2.1,
         (process_loop o p vs rem (process_single o p v s).2).2.2)
    ∧ (∀ (o2 : Oracles) (maxYT maxFB minutes : Int) (schedule : List String)
          (today tomorrow : String) (s2 : QState),
        (∀ r ∈ (process_queue o2 maxYT maxFB minutes schedule today tomorrow s2).1,
          r.error.isSome = !r.success)
        ∧ (∀ r ∈ (force_upload o2 maxYT maxFB today tomorrow s2).1,
          r.error.isSome = !r.success)) := by
  refine ⟨process_single_fail_spec o p v s hfail, process_loop_cons_fail o p v vs rem s hfail, ?_⟩
  intro o2 maxYT maxFB minutes schedule today tomorrow s2
  constructor
  · intro r hr
    unfold process_queue at hr
    split at hr
    · exact process_both_error_iff o2 maxYT maxFB today tomorrow false s2 r hr
    · simp at hr
  · exact process_both_error_iff o2 maxYT maxFB today tomorrow true s2

/-- Witness for claim C7: a Facebook item whose download fails is marked
"failed" with a reason and does not stop the loop. -/
theorem per_item_failure_isolated_witness :
    (process_single downOracles "facebook" vidC7 stateC7).1.success = false
    ∧ ((((process_single downOracles "facebook" vidC7 stateC7).1.error.isSome = true
          ∧ getCell (target (process_single downOracles "facebook" vidC7 stateC7).2 "facebook")
              vidC7.row 7 = "failed")
        ∧ process_loop downOracles "facebook" [vidC7] 1 stateC7 =
            ((process_single downOracles "facebook" vidC7 stateC7).1 ::
                (process_loop downOracles "facebook" [] 1
                  (process_single downOracles "facebook" vidC7 stateC7).2).1,
             (process_loop downOracles "facebook" [] 1
                (process_single downOracles "facebook" vidC7 stateC7).2).2.1,
             (process_loop downOracles "facebook" [] 1
                (process_single downOracles "facebook" vidC7 stateC7).2).2.2)
        ∧ (∀ (o2 : Oracles) (maxYT maxFB minutes : Int) (schedule : List String)
              (today tomorrow : String) (s2 : QState),
            (∀ r ∈ (process_queue o2 maxYT maxFB minutes schedule today tomorrow s2).1,
              r.error.isSome = !r.success)
            ∧ (∀ r ∈ (force_upload o2 maxYT maxFB today tomorrow s2).1,
              r.error.isSome = !r.success)))) :=
  ⟨by decide,
   per_item_failure_isolated downOracles "facebook" vidC7 [] 1 stateC7 (by decide)⟩

/-- Claim C8.  The stored-link identifier extraction returns "ABC123" for the
three accepted remote-link shapes: the path-segment form (the branch keys on
the substring "/file/d/", as in the canonical Drive viewer URL), the
query-parameter form, and the bare identifier fallback. -/
theorem drive_link_extraction_roundtrip :
    extract_drive_id "https://drive.google.com/file/d/ABC123/view" = "ABC123"
    ∧ extract_drive_id "https://drive.google.com/open?id=ABC123" = "ABC123"
    ∧ extract_drive_id "ABC123" = "ABC123" := by decide

/-- Claim C9, counterexample.  The claim states a newly enqueued item's
scheduled_date is empty at creation.  It is not: `add_video`
(sheets_manager.py lines 130-145) computes a scheduled date before appending
— enqueueing into empty sheets with quota 6 creates row 2 with scheduled_date
equal to today. -/
theorem scheduled_date_set_at_creation :
    (add_video 6 6 "2026-10-12 10:00:00" "2026-10-12" "2026-10-13"
        "v.mp4" "L" "" "pending" "youtube" stateC9).1 = 2
    ∧ getCell ((add_video 6 6 "2026-10-12 10:00:00" "2026-10-12" "2026-10-13"
        "v.mp4" "L" "" "pending" "youtube" stateC9).2).sheet 2 9 = "2026-10-12"
    ∧ ¬ getCell ((add_video 6 6 "2026-10-12 10:00:00" "2026-10-12" "2026-10-13"
        "v.mp4" "L" "" "pending" "youtube" stateC9).2).sheet 2 9 = "" := by decide

/-- Claim C9, amended: every newly enqueued item receives a non-empty
scheduled_date at creation — today's date when the platform bucket still has
remaining daily quota (`remaining_today > 0`), otherwise tomorrow's date. -/
theorem scheduled_date_assigned_at_creation (maxYT maxFB : Int)
    (nowStr today tomorrow filename driveLink channel status platform : String) (s : QState)
    (htoday : today ≠ "") (htomorrow : tomorrow ≠ "") :
    getCell (target (add_video maxYT maxFB nowStr today tomorrow filename driveLink channel
          status platform s).2 platform)
        (add_video maxYT maxFB nowStr today tomorrow filename driveLink channel
          status platform s).1 9
      = (if 0 < max 0 ((if platform = "facebook" then maxFB else maxYT)
            - (count_uploads_today (target s platform) today : Int)) then today else tomorrow)
    ∧ getCell (target (add_video maxYT maxFB nowStr today tomorrow filename driveLink channel
          status platform s).2 platform)
        (add_video maxYT maxFB nowStr today tomorrow filename driveLink channel
          status platform s).1 9
      ≠ "" := by
  have hcell : getCell (target (add_video maxYT maxFB nowStr today tomorrow filename driveLink
        channel status platform s).2 platform)
      (add_video maxYT maxFB nowStr today tomorrow filename driveLink channel
        status platform s).1 9
      = (if 0 < max 0 ((if platform = "facebook" then maxFB else maxYT)
            - (count_uploads_today (target s platform) today : Int)) then today else tomorrow) := by
    simp only [add_video]
    rw [target_setTarget]
    unfold getCell
    rw [List.length_append, List.length_singleton, Nat.add_sub_cancel,
      getRowIdx_append_length]
    rfl
  refine ⟨hcell, ?_⟩
  rw [hcell]
  split_ifs <;> first | exact htoday | exact htomorrow

/-- Witness for the amended claim C9: enqueueing into empty sheets assigns
today. -/
theorem scheduled_date_assigned_at_creation_witness :
    (("2026-10-12" : String) ≠ "" ∧ ("2026-10-13" : String) ≠ "")
    ∧ (getCell (target (add_video 6 6 "2026-10-12 10:00:00" "2026-10-12" "2026-10-13"
            "v.mp4" "L" "" "pending" "youtube" stateC9).2 "youtube")
          (add_video 6 6 "2026-10-12 10:00:00" "2026-10-12" "2026-10-13"
            "v.mp4" "L" "" "pending" "youtube" stateC9).1 9
        = (if 0 < max 0 ((if ("youtube" : String) = "facebook" then (6 : Int) else 6)
              - (count_uploads_today (target stateC9 "youtube") "2026-10-12" : Int))
           then "2026-10-12" else "2026-10-13")
       ∧ getCell (target (add_video 6 6 "2026-10-12 10:00:00" "2026-10-12" "2026-10-13"
            "v.mp4" "L" "" "pending" "youtube" stateC9).2 "youtube")
          (add_video 6 6 "2026-10-12 10:00:00" "2026-10-12" "2026-10-13"
            "v.mp4" "L" "" "pending" "youtube" stateC9).1 9
        ≠ "") :=
  ⟨⟨by decide, by decide⟩,
   scheduled_date_assigned_at_creation 6 6 "2026-10-12 10:00:00" "2026-10-12" "2026-10-13"
     "v.mp4" "L" "" "pending" "youtube" stateC9 (by decide) (by decide)⟩

/-- Claim C10.  The window gate measures time-of-day distance circularly on
the 1440-minute clock: for slots and a current minute on the clock, the gate
opens iff some parseable slot `t` satisfies
`min |n - t| (1440 - |n - t|) ≤ 30`; in particular 23:40 (minute 1420) is
inside the window of a "00:00" slot. -/
theorem window_gate_circular_distance (n : Int) (schedule : List String)
    (_hn0 : 0 ≤ n) (_hn : n < 1440)
    (_hs : ∀ t ∈ slotMinutes schedule, 0 ≤ t ∧ t < 1440) :
    (is_upload_time n schedule = true
      ↔ ∃ t ∈ slotMinutes schedule, circularDistance n t ≤ 30)
    ∧ is_upload_time 1420 ["00:00"] = true :=
  ⟨is_upload_time_iff_circular n schedule, by decide⟩

/-- Witness for claim C10 at 23:40 against the single slot "00:00". -/
theorem window_gate_circular_distance_witness :
    ((0 : Int) ≤ 1420 ∧ (1420 : Int) < 1440
      ∧ (∀ t ∈ slotMinutes ["00:00"], 0 ≤ t ∧ t < 1440))
    ∧ ((is_upload_time 1420 ["00:00"] = true
        ↔ ∃ t ∈ slotMinutes ["00:00"], circularDistance 1420 t ≤ 30)
       ∧ is_upload_time 1420 ["00:00"] = true) :=
  ⟨⟨by decide, by decide, by decide⟩,
   window_gate_circular_distance 1420 ["00:00"] (by decide) (by decide) (by decide)⟩
